import Mathlib

/-!
Verification development for the AI-tutor core logic
(`ai_tutor/tools/{assessment,roadmap,evaluation,content}.py`).

The Python functions are shallowly embedded: pure functions become Lean
functions; Python dict literals with `.get(key, default)` become
association lists with a defaulted lookup; Python `try/except` becomes
`Except`-valued bodies whose handlers are explicit matches; a Python
function that can raise an exception past its boundary returns `Option`
(with `none` standing for the raised exception); external collaborator
calls (`tool_context.analyze_text`, `generate_image`, ...) become
function parameters returning `Except String reply`, with `.error`
standing for a raised exception inside the collaborator call.
-/

namespace AITutor

/-- Boolean test that `pat` is a leading segment of `s` (over char lists). -/
def charsLead : List Char → List Char → Bool
  | [], _ => true
  | _ :: _, [] => false
  | a :: as, b :: bs => a == b && charsLead as bs

/-- Boolean test that `pat` occurs contiguously inside `s` (over char lists). -/
def charsInside (pat : List Char) : List Char → Bool
  | [] => charsLead pat []
  | b :: bs => charsLead pat (b :: bs) || charsInside pat bs

/-- Python `pat in s`: substring containment. -/
def strContains (s pat : String) : Bool :=
  charsInside pat.toList s.toList

/-- Python `str.lower()` (ASCII case mapping, as used by the source's inputs). -/
def strToLower (s : String) : String :=
  s.map Char.toLower

/-- Python `dict.get(key, default)` over a dict literal represented as an
association list (first binding wins, matching Python dict key uniqueness). -/
def pyDictGetD {α : Type} (d : List (String × α)) (k : String) (dflt : α) : α :=
  match d.find? (fun p => p.1 == k) with
  | some p => p.2
  | none => dflt

/-- Python list indexing `l[i]`: non-negative indices from the front,
negative indices from the back, `none` when Python would raise IndexError. -/
def pyIndex (l : List String) (i : Int) : Option String :=
  if 0 ≤ i then
    l.get? i.toNat
  else if -(l.length : Int) ≤ i then
    l.get? ((l.length : Int) + i).toNat
  else
    none

/-! ## assessment.py: `assess_user_profile` -/

/-- The `assessment_factors` sub-dict of the user profile. -/
structure AssessmentFactors where
  base_level : String
  goal_complexity : Int
  final_level : String
  deriving Repr, DecidableEq

/-- The `user_profile` sub-dict built by `assess_user_profile`. -/
structure UserProfile where
  topic : String
  experience_level : String
  learning_goals : String
  preferred_style : String
  assessed_level : String
  confidence_score : ℚ
  assessment_factors : AssessmentFactors
  deriving Repr, DecidableEq

/-- The `recommendations` sub-dict built by `assess_user_profile`. -/
structure AssessRecommendations where
  starting_point : String
  pace : String
  learning_approach : String
  estimated_timeline : String
  deriving Repr, DecidableEq

/-- The dict returned by `assess_user_profile`. -/
structure Assessment where
  status : String
  user_profile : UserProfile
  recommendations : AssessRecommendations
  deriving Repr, DecidableEq

/-- Embedding of `assess_user_profile` (assessment.py lines 50-126).
Returns `Option`: `none` would mean an exception escaped (in the source the
only possible raise is the list indexing into the three level labels). -/
def assess_user_profile (topic experience_level learning_goals preferred_style :
    String) : Option Assessment :=
  let level_scores : List (String × Int) :=
    [("beginner", 1), ("intermediate", 2), ("advanced", 3)]
  let goals_lower := strToLower learning_goals
  let goal_complexity : Int :=
    if strContains goals_lower "advanced" || strContains goals_lower "expert" then 1
    else if strContains goals_lower "basic" || strContains goals_lower "introduction" then -1
    else 0
  let base_level : Int := pyDictGetD level_scores experience_level 1
  let assessed_level_score : Int := max 1 (min 3 (base_level + goal_complexity))
  match pyIndex ["beginner", "intermediate", "advanced"] (assessed_level_score - 1) with
  | none => none
  | some assessed_level =>
    let pace0 : String :=
      if assessed_level = "beginner" then "slow"
      else if assessed_level = "intermediate" then "moderate"
      else "fast"
    let pace : String :=
      if preferred_style = "hands-on" then "moderate"
      else if preferred_style = "theoretical" then "fast"
      else pace0
    some
      { status := "success"
        user_profile :=
          { topic := topic
            experience_level := experience_level
            learning_goals := learning_goals
            preferred_style := preferred_style
            assessed_level := assessed_level
            confidence_score := (85 : ℚ) / 100
            assessment_factors :=
              { base_level := experience_level
                goal_complexity := goal_complexity
                final_level := assessed_level } }
        recommendations :=
          { starting_point := assessed_level ++ "_level_content"
            pace := pace
            learning_approach := preferred_style ++ "_focused"
            estimated_timeline :=
              if pace = "moderate" then "4-6 weeks"
              else if pace = "fast" then "2-3 weeks"
              else "6-8 weeks" } }

/-! ### Spec-side formulation of the assessment algorithm (from the claim's words) -/

/-- Spec wording: map stated_experience to an ordinal base level 1-3,
unknown values default to 1. -/
def specBaseLevel (e : String) : Int :=
  if e = "beginner" then 1
  else if e = "intermediate" then 2
  else if e = "advanced" then 3
  else 1

/-- Spec wording: +1 if the goals text case-insensitively contains
"advanced" or "expert", -1 if it contains "basic" or "introduction", else 0. -/
def specGoalComplexity (g : String) : Int :=
  if strContains (strToLower g) "advanced" || strContains (strToLower g) "expert" then 1
  else if strContains (strToLower g) "basic" || strContains (strToLower g) "introduction" then -1
  else 0

/-- Spec wording: the level label at ordinal 1, 2 or 3. -/
def specLevelLabel (i : Int) : String :=
  if i = 1 then "beginner"
  else if i = 2 then "intermediate"
  else "advanced"

/-- Spec wording: assessed_level = label at clamp(base + complexity, 1, 3). -/
def specAssessedLevel (e g : String) : String :=
  specLevelLabel (max 1 (min 3 (specBaseLevel e + specGoalComplexity g)))

/-- Spec wording: pace is the level default (beginner→slow,
intermediate→moderate, advanced→fast) unless preferred_style is "hands-on"
(forcing moderate) or "theoretical" (forcing fast), the override winning. -/
def specPace (e g s : String) : String :=
  if s = "hands-on" then "moderate"
  else if s = "theoretical" then "fast"
  else if specAssessedLevel e g = "beginner" then "slow"
  else if specAssessedLevel e g = "intermediate" then "moderate"
  else "fast"

/-- The level-score dict lookup agrees with the spec-side base-level map. -/
lemma pyDictGetD_levels (e : String) :
    pyDictGetD [("beginner", (1 : Int)), ("intermediate", 2), ("advanced", 3)] e 1 =
      specBaseLevel e := by
  by_cases h1 : e = "beginner"
  · subst h1; rfl
  by_cases h2 : e = "intermediate"
  · subst h2; rfl
  by_cases h3 : e = "advanced"
  · subst h3; rfl
  have b1 : ("beginner" == e) = false := beq_eq_false_iff_ne.mpr (Ne.symm h1)
  have b2 : ("intermediate" == e) = false := beq_eq_false_iff_ne.mpr (Ne.symm h2)
  have b3 : ("advanced" == e) = false := beq_eq_false_iff_ne.mpr (Ne.symm h3)
  simp [pyDictGetD, List.find?, specBaseLevel, b1, b2, b3, h1, h2, h3]

/-- Indexing the three level labels at a clamped ordinal never raises and
gives the label at that ordinal. -/
lemma pyIndex_clamp (x : Int) :
    pyIndex ["beginner", "intermediate", "advanced"] (max 1 (min 3 x) - 1) =
      some (specLevelLabel (max 1 (min 3 x))) := by
  have h1 : 1 ≤ max 1 (min 3 x) := le_max_left _ _
  have h3 : max 1 (min 3 x) ≤ 3 := max_le (by norm_num) (min_le_left _ _)
  generalize hy : max 1 (min 3 x) = y at h1 h3
  interval_cases y <;> decide

/-- `assess_user_profile` computed in closed form with the spec-side
assessment functions. -/
lemma assess_eq (t e g s : String) :
    assess_user_profile t e g s = some
      { status := "success"
        user_profile :=
          { topic := t
            experience_level := e
            learning_goals := g
            preferred_style := s
            assessed_level := specAssessedLevel e g
            confidence_score := (85 : ℚ) / 100
            assessment_factors :=
              { base_level := e
                goal_complexity := specGoalComplexity g
                final_level := specAssessedLevel e g } }
        recommendations :=
          { starting_point := specAssessedLevel e g ++ "_level_content"
            pace := specPace e g s
            learning_approach := s ++ "_focused"
            estimated_timeline :=
              if specPace e g s = "moderate" then "4-6 weeks"
              else if specPace e g s = "fast" then "2-3 weeks"
              else "6-8 weeks" } } := by
  simp only [assess_user_profile, specPace, specAssessedLevel, specGoalComplexity]
  rw [pyDictGetD_levels, pyIndex_clamp]

/-- C4: `assess_user_profile` is total (no exception escapes: in particular the
label indexing is in bounds) and the assessed level is always one of the
three labels, for every combination of input strings. -/
theorem assess_user_profile_total_and_level_closed (t e g s : String) :
    ∃ a, assess_user_profile t e g s = some a ∧
      (a.user_profile.assessed_level = "beginner" ∨
       a.user_profile.assessed_level = "intermediate" ∨
       a.user_profile.assessed_level = "advanced") := by
  refine ⟨_, assess_eq t e g s, ?_⟩
  simp only [specAssessedLevel, specLevelLabel]
  split_ifs <;> simp

/-- C5: `assess_user_profile` computes assessed_level as the label at
clamp(base + complexity, 1, 3) with the spec's base and complexity maps, and
pace as the level default overridden by the hands-on/theoretical style. -/
theorem assess_user_profile_algorithm (t e g s : String) :
    ∃ a, assess_user_profile t e g s = some a ∧
      a.user_profile.assessed_level = specAssessedLevel e g ∧
      a.user_profile.assessment_factors.goal_complexity = specGoalComplexity g ∧
      a.recommendations.pace = specPace e g s := by
  exact ⟨_, assess_eq t e g s, rfl, rfl, rfl⟩

/-! ## Python values, dicts and a heap of dict objects

`adapt_roadmap` mutates a shallow copy of its argument dict, so we model
Python dict objects explicitly: a heap maps addresses to dicts, dict values
may hold references to other heap objects (e.g. the nested phase dicts), and
`dict.copy()` allocates a fresh address holding the same top-level entries
(nested references shared, as in Python's shallow copy). -/

/-- A Python value as used by the roadmap dicts. -/
inductive PyVal where
  | str : String → PyVal
  | int : Int → PyVal
  | list : List PyVal → PyVal
  | dict : List (String × PyVal) → PyVal
  | ref : Nat → PyVal
  deriving Repr

/-- A Python dict object: key/value entries in insertion order. -/
def PyDict : Type := List (String × PyVal)

/-- The heap of dict objects. -/
def Heap : Type := Nat → Option PyDict

/-- Python dict read `d[k]` / `d.get(k)`. -/
def dictGet (d : PyDict) (k : String) : Option PyVal :=
  (List.find? (fun p => p.1 == k) d).map (·.2)

/-- Python dict write `d[k] = v`: overwrite in place, else append. -/
def dictSet (d : PyDict) (k : String) (v : PyVal) : PyDict :=
  match d with
  | [] => [(k, v)]
  | (k', v') :: rest =>
      if k' = k then (k, v) :: rest else (k', v') :: dictSet rest k v

/-- Python `x < n` for a dict value against an int: defined for ints, a
`none` models the TypeError an unorderable value would raise. -/
def pyLtInt (v : PyVal) (n : Int) : Option Bool :=
  match v with
  | .int m => some (decide (m < n))
  | _ => none

/-! ## roadmap.py: `create_learning_roadmap` -/

/-- One phase dict of the roadmap template. -/
structure RoadPhase where
  name : String
  duration : String
  objectives : List String
  checkpoints : List String
  deriving Repr, DecidableEq

/-- The dict returned by `create_learning_roadmap`. -/
structure RoadmapResult where
  status : String
  topic : String
  timeline : String
  roadmap : List (String × RoadPhase)
  total_checkpoints : Int
  estimated_completion : String
  deriving Repr, DecidableEq

/-- Embedding of `create_learning_roadmap` (roadmap.py lines 11-67). -/
def create_learning_roadmap (topic : String) (user_profile research_data : PyDict)
    (timeline : String) : RoadmapResult :=
  { status := "success"
    topic := topic
    timeline := timeline
    roadmap :=
      [("phase_1",
        { name := "Foundation"
          duration := "1 week"
          objectives :=
            ["Understand basic " ++ topic ++ " concepts",
             "Set up " ++ topic ++ " environment"]
          checkpoints := ["basic_quiz", "setup_verification"] }),
       ("phase_2",
        { name := "Core Learning"
          duration := "2 weeks"
          objectives :=
            ["Master core " ++ topic ++ " skills",
             "Build practical projects"]
          checkpoints := ["intermediate_quiz", "project_submission"] }),
       ("phase_3",
        { name := "Advanced Application"
          duration := "1 week"
          objectives :=
            ["Apply " ++ topic ++ " to real problems",
             "Create portfolio project"]
          checkpoints := ["advanced_quiz", "portfolio_review"] })]
    total_checkpoints := 6
    estimated_completion := timeline }

/-! ## roadmap.py: `adapt_roadmap` -/

/-- The `adaptations` dict attached by `adapt_roadmap`, given the already
computed result of the score comparison. -/
def adaptationsValue (score_below : Bool) : PyVal :=
  .dict
    [("reason", .str "Based on evaluation results and user feedback"),
     ("changes", .list
        [.str "Extended timeline for difficult concepts",
         .str "Added additional practice exercises",
         .str "Included more visual content for better understanding"]),
     ("updated_timeline", .str (if score_below then "5 weeks" else "4 weeks"))]

/-- Embedding of `adapt_roadmap` (roadmap.py lines 70-102) over the heap
model. `current_roadmap` is the address of the argument dict, `fresh` the
address allocated for `current_roadmap.copy()`. The result is the final
heap and the address of the returned dict; `none` models an exception
(dangling reference, or TypeError from comparing a non-int score). -/
def adapt_roadmap (h : Heap) (current_roadmap fresh : Nat)
    (evaluation_results : PyDict) (user_feedback : String) :
    Option (Heap × Nat) :=
  match h current_roadmap with
  | none => none
  | some d =>
    let adapted := dictSet d "status" (.str "success")
    match pyLtInt ((dictGet evaluation_results "score").getD (.int 0)) 70 with
    | none => none
    | some score_below =>
      let adapted := dictSet adapted "adaptations" (adaptationsValue score_below)
      let adapted := dictSet adapted "last_updated" (.str "2024-01-01T00:00:00Z")
      some (fun a => if a = fresh then some adapted else h a, fresh)

/-! ### Dict lemmas and roadmap theorems -/

/-- Reading the head (or skipping it) in a Python dict. -/
lemma dictGet_cons (k1 : String) (v1 : PyVal) (rest : PyDict) (k' : String) :
    dictGet ((k1, v1) :: rest) k' =
      if k1 = k' then some v1 else dictGet rest k' := by
  by_cases h : k1 = k'
  · subst h; simp [dictGet, List.find?]
  · have hb : (k1 == k') = false := beq_eq_false_iff_ne.mpr h
    simp [dictGet, List.find?, hb, h]

/-- Reading a key after a Python dict write. -/
lemma dictGet_dictSet (d : PyDict) (k k' : String) (v : PyVal) :
    dictGet (dictSet d k v) k' = if k' = k then some v else dictGet d k' := by
  induction d with
  | nil =>
    rw [show dictSet [] k v = [(k, v)] from rfl, dictGet_cons]
    by_cases h : k' = k
    · subst h; simp [dictGet]
    · have h' : ¬(k = k') := fun hh => h hh.symm
      simp [dictGet, h, h']
  | cons p rest ih =>
    obtain ⟨k1, v1⟩ := p
    by_cases hk1 : k1 = k
    · subst hk1
      rw [show dictSet ((k1, v1) :: rest) k1 v = (k1, v) :: rest from by
        simp [dictSet]]
      rw [dictGet_cons, dictGet_cons]
      by_cases h : k1 = k'
      · subst h; simp
      · have h' : ¬(k' = k1) := fun hh => h hh.symm
        simp [h, h']
    · rw [show dictSet ((k1, v1) :: rest) k v = (k1, v1) :: dictSet rest k v from
        by simp [dictSet, hk1]]
      rw [dictGet_cons, dictGet_cons, ih]
      by_cases h2 : k1 = k'
      · subst h2
        simp [hk1]
      · simp [h2]

/-- C6: the roadmap template has exactly the three phases in order, two
objectives and two checkpoints each, and the six fixed checkpoint tags,
pairwise distinct, for every topic, profile, digest and timeline. -/
theorem create_learning_roadmap_structure (topic : String)
    (user_profile research_data : PyDict) (timeline : String) :
    let r := create_learning_roadmap topic user_profile research_data timeline
    r.roadmap.map (fun p => p.2.name) =
      ["Foundation", "Core Learning", "Advanced Application"] ∧
    r.roadmap.map (fun p => (p.2.objectives.length, p.2.checkpoints.length)) =
      [(2, 2), (2, 2), (2, 2)] ∧
    (r.roadmap.map (fun p => p.2.checkpoints)).flatten =
      ["basic_quiz", "setup_verification", "intermediate_quiz",
       "project_submission", "advanced_quiz", "portfolio_review"] ∧
    ((r.roadmap.map (fun p => p.2.checkpoints)).flatten).Nodup ∧
    ((r.roadmap.map (fun p => p.2.checkpoints)).flatten).length = 6 := by
  refine ⟨rfl, rfl, rfl, ?_, rfl⟩
  have he : ((create_learning_roadmap topic user_profile research_data
        timeline).roadmap.map (fun p => p.2.checkpoints)).flatten =
      ["basic_quiz", "setup_verification", "intermediate_quiz",
       "project_submission", "advanced_quiz", "portfolio_review"] := rfl
  rw [he]
  decide

/-- C7: the roadmap depends only on topic and timeline; any two profiles
and research digests give equal results. -/
theorem create_learning_roadmap_ignores_profile (topic timeline : String)
    (p1 d1 p2 d2 : PyDict) :
    create_learning_roadmap topic p1 d1 timeline =
      create_learning_roadmap topic p2 d2 timeline := rfl

/-- Core computation of `adapt_roadmap` when the score comparison is
defined: the call succeeds, returns the fresh address, and the attached
adaptations dict carries the threshold-chosen timeline. -/
lemma adapt_roadmap_spec (h : Heap) (r fresh : Nat) (d ev : PyDict)
    (fb : String) (b : Bool) (hr : h r = some d)
    (hb : pyLtInt ((dictGet ev "score").getD (.int 0)) 70 = some b) :
    ∃ h', adapt_roadmap h r fresh ev fb = some (h', fresh) ∧
      ∃ A, dictGet ((h' fresh).getD []) "adaptations" = some (.dict A) ∧
        dictGet A "updated_timeline" =
          some (.str (if b then "5 weeks" else "4 weeks")) := by
  unfold adapt_roadmap
  rw [hr, hb]
  refine ⟨_, rfl, ?_⟩
  simp only [eq_self_iff_true, if_true, Option.getD_some]
  rw [dictGet_dictSet, if_neg (by decide : ¬("adaptations" = "last_updated")),
    dictGet_dictSet, if_pos rfl]
  refine ⟨_, rfl, ?_⟩
  cases b <;> rfl

/-- C8: for an evaluation carrying an integer score, `adapt_roadmap`
attaches adaptations with updated_timeline "5 weeks" when score < 70 and
"4 weeks" otherwise. -/
theorem adapt_roadmap_timeline_threshold (h : Heap) (r fresh : Nat)
    (d ev : PyDict) (fb : String) (s : Int) (hr : h r = some d)
    (hs : dictGet ev "score" = some (.int s)) :
    ∃ h', adapt_roadmap h r fresh ev fb = some (h', fresh) ∧
      ∃ A, dictGet ((h' fresh).getD []) "adaptations" = some (.dict A) ∧
        dictGet A "updated_timeline" =
          some (.str (if s < 70 then "5 weeks" else "4 weeks")) := by
  have hb : pyLtInt ((dictGet ev "score").getD (.int 0)) 70 =
      some (decide (s < 70)) := by
    rw [hs]; rfl
  have res := adapt_roadmap_spec h r fresh d ev fb (decide (s < 70)) hr hb
  by_cases hlt : s < 70
  · simpa [hlt] using res
  · simpa [hlt] using res

/-- Example heap: one dict object (the roadmap) at address 0. -/
def exHeap : Heap := fun a => if a = 0 then some [] else none

/-- Witness for C8: at score 60 the adapted roadmap carries
updated_timeline "5 weeks". -/
theorem adapt_roadmap_timeline_threshold_witness :
    ∃ h', adapt_roadmap exHeap 0 1 [("score", PyVal.int 60)] "ok" =
        some (h', 1) ∧
      ∃ A, dictGet ((h' 1).getD []) "adaptations" = some (.dict A) ∧
        dictGet A "updated_timeline" =
          some (.str (if (60 : Int) < 70 then "5 weeks" else "4 weeks")) :=
  adapt_roadmap_timeline_threshold exHeap 0 1 [] [("score", PyVal.int 60)]
    "ok" 60 rfl rfl

/-- C9: `adapt_roadmap` never changes the heap outside the freshly
allocated copy: the original roadmap address (and every other existing
address, in particular the nested phase dicts) reads the same after the
call; all changes live at the returned fresh address. -/
theorem adapt_roadmap_no_mutation (h : Heap) (r fresh : Nat) (ev : PyDict)
    (fb : String) (h' : Heap) (r' : Nat) (hfresh : h fresh = none)
    (hcall : adapt_roadmap h r fresh ev fb = some (h', r')) :
    r' = fresh ∧ h' r = h r ∧ ∀ a, a ≠ fresh → h' a = h a := by
  unfold adapt_roadmap at hcall
  cases hd : h r with
  | none => rw [hd] at hcall; exact absurd hcall (by simp)
  | some d =>
    rw [hd] at hcall
    cases hlt : pyLtInt ((dictGet ev "score").getD (.int 0)) 70 with
    | none => rw [hlt] at hcall; exact absurd hcall (by simp)
    | some b =>
      rw [hlt] at hcall
      simp only [Option.some.injEq, Prod.mk.injEq] at hcall
      obtain ⟨hh, hrfl⟩ := hcall
      subst hh
      subst hrfl
      have hrne : r ≠ fresh := by
        intro he
        rw [he, hfresh] at hd
        exact absurd hd (by simp)
      refine ⟨rfl, (if_neg hrne).trans hd, ?_⟩
      intro a ha
      exact if_neg ha

/-- The concrete adapted dict produced from the empty roadmap dict and
score 60. -/
def exAdaptedDict : PyDict :=
  dictSet (dictSet (dictSet [] "status" (.str "success"))
    "adaptations" (adaptationsValue true)) "last_updated"
    (.str "2024-01-01T00:00:00Z")

/-- The concrete heap after the adapt call on `exHeap`. -/
def exAdaptedHeap : Heap :=
  fun a => if a = 1 then some exAdaptedDict else exHeap a

/-- Witness for C9: on a concrete heap, the call returns the fresh
address and the original address is unchanged. -/
theorem adapt_roadmap_no_mutation_witness :
    exHeap 1 = none ∧
    adapt_roadmap exHeap 0 1 [("score", PyVal.int 60)] "ok" =
      some (exAdaptedHeap, 1) ∧
    ((1 : Nat) = 1 ∧ exAdaptedHeap 0 = exHeap 0 ∧
      ∀ a, a ≠ 1 → exAdaptedHeap a = exHeap a) :=
  ⟨rfl, rfl,
    adapt_roadmap_no_mutation exHeap 0 1 [("score", PyVal.int 60)] "ok"
      exAdaptedHeap 1 rfl rfl⟩

/-- C10: an evaluation with no score field at all falls into the remedial
branch: the default 0 makes updated_timeline "5 weeks". -/
theorem adapt_roadmap_missing_score (h : Heap) (r fresh : Nat)
    (d ev : PyDict) (fb : String) (hr : h r = some d)
    (hs : dictGet ev "score" = none) :
    ∃ h', adapt_roadmap h r fresh ev fb = some (h', fresh) ∧
      ∃ A, dictGet ((h' fresh).getD []) "adaptations" = some (.dict A) ∧
        dictGet A "updated_timeline" = some (.str "5 weeks") := by
  have hb : pyLtInt ((dictGet ev "score").getD (.int 0)) 70 = some true := by
    rw [hs]; rfl
  simpa using adapt_roadmap_spec h r fresh d ev fb true hr hb

/-- Witness for C10: the empty evaluation dict yields "5 weeks". -/
theorem adapt_roadmap_missing_score_witness :
    ∃ h', adapt_roadmap exHeap 0 1 [] "ok" = some (h', 1) ∧
      ∃ A, dictGet ((h' 1).getD []) "adaptations" = some (.dict A) ∧
        dictGet A "updated_timeline" = some (.str "5 weeks") :=
  adapt_roadmap_missing_score exHeap 0 1 [] [] "ok" rfl rfl

/-! ## evaluation.py: `evaluate_knowledge` and its route helpers -/

/-- The structured reply of the analysis collaborator
(`tool_context.analyze_text`): a dict read with `.get("score", d)` and
`.get("feedback", d)`, so each field may be absent. -/
structure AnalysisReply where
  score : Option Int
  feedback : Option String

/-- The analysis collaborator: maps the prompt to a reply, `.error` models
an exception raised inside the call. -/
def Analyze : Type := String → Except String AnalysisReply

/-- The `evaluation_results` dict built by the route helpers (the outer
fallback dict carries no `analysis_method` key, hence the `Option`). -/
structure EvalResults where
  score : Int
  max_score : Int
  feedback : String
  analysis_method : Option String

/-- The `recommendations` dict. -/
structure Recommendations where
  next_steps : String
  focus_areas : List String
  additional_resources : List String

/-- The dict returned by `evaluate_knowledge` (success and fallback shapes
merged; keys present on only one path are `Option`). -/
structure Evaluation where
  status : String
  topic : String
  checkpoint_type : String
  evaluation_results : EvalResults
  recommendations : Recommendations
  progress_percentage : Int
  evaluation_method : Option String
  timestamp : Option String
  error : Option String

/-- Embedding of `_evaluate_quiz_response` (evaluation.py lines 112-134). -/
def evaluate_quiz_response (topic response : String) (analyze : Analyze) :
    EvalResults :=
  let analysis_prompt := "Analyze this response about " ++ topic ++ ": '" ++
    response ++ "'. Rate the understanding from 0-100 and provide feedback."
  match analyze analysis_prompt with
  | .ok analysis_result =>
    { score := analysis_result.score.getD 75
      max_score := 100
      feedback := analysis_result.feedback.getD
        ("Response shows understanding of " ++ topic)
      analysis_method := some "ai_text_analysis" }
  | .error _ =>
    { score := 75
      max_score := 100
      feedback := "Response demonstrates basic understanding of " ++ topic
      analysis_method := some "ai_text_analysis" }

/-- Embedding of `_evaluate_project_submission` (lines 137-159). -/
def evaluate_project_submission (topic submission : String)
    (analyze : Analyze) : EvalResults :=
  let analysis_prompt := "Evaluate this project submission about " ++ topic ++
    ": '" ++ submission ++
    "'. Assess creativity, technical accuracy, and completeness (0-100)."
  match analyze analysis_prompt with
  | .ok analysis_result =>
    { score := analysis_result.score.getD 80
      max_score := 100
      feedback := analysis_result.feedback.getD
        ("Project shows good understanding of " ++ topic)
      analysis_method := some "ai_project_analysis" }
  | .error _ =>
    { score := 80
      max_score := 100
      feedback := "Project demonstrates understanding of " ++ topic ++
        " concepts"
      analysis_method := some "ai_project_analysis" }

/-- Embedding of `_evaluate_presentation` (lines 162-182). -/
def evaluate_presentation (topic pres : String) (analyze : Analyze) :
    EvalResults :=
  let analysis_prompt := "Evaluate this presentation about " ++ topic ++
    ": '" ++ pres ++ "'. Assess clarity, depth, and engagement (0-100)."
  match analyze analysis_prompt with
  | .ok analysis_result =>
    { score := analysis_result.score.getD 85
      max_score := 100
      feedback := analysis_result.feedback.getD
        ("Presentation effectively communicates " ++ topic ++ " concepts")
      analysis_method := some "ai_presentation_analysis" }
  | .error _ =>
    { score := 85
      max_score := 100
      feedback := "Presentation shows understanding of " ++ topic
      analysis_method := some "ai_presentation_analysis" }

/-- Embedding of `_evaluate_general_response` (lines 185-205). -/
def evaluate_general_response (topic response : String) (analyze : Analyze) :
    EvalResults :=
  let analysis_prompt := "Evaluate this response about " ++ topic ++ ": '" ++
    response ++ "'. Assess understanding and accuracy (0-100)."
  match analyze analysis_prompt with
  | .ok analysis_result =>
    { score := analysis_result.score.getD 70
      max_score := 100
      feedback := analysis_result.feedback.getD
        ("Response shows understanding of " ++ topic)
      analysis_method := some "ai_general_analysis" }
  | .error _ =>
    { score := 70
      max_score := 100
      feedback := "Response demonstrates basic knowledge of " ++ topic
      analysis_method := some "ai_general_analysis" }

/-- The try-body of `evaluate_knowledge` (lines 28-87), as an
`Except`-valued computation. Every route helper catches the collaborator
failure with its own bare `except` and returns a defaulted dict, and
with the modelled reply type (`score` an optional int) no remaining
operation in the body can raise, so the body never throws. -/
def evaluate_knowledge_try (topic checkpoint_type user_response : String)
    (analyze : Analyze) : Except String Evaluation :=
  let evaluation_results :=
    if checkpoint_type = "quiz" then
      evaluate_quiz_response topic user_response analyze
    else if checkpoint_type = "project" then
      evaluate_project_submission topic user_response analyze
    else if checkpoint_type = "presentation" then
      evaluate_presentation topic user_response analyze
    else
      evaluate_general_response topic user_response analyze
  let score := evaluation_results.score
  let recommendations : Recommendations :=
    if score ≥ 90 then
      { next_steps := "Excellent! Ready for advanced " ++ topic ++ " concepts"
        focus_areas := ["advanced applications", "optimization techniques"]
        additional_resources :=
          ["Advanced " ++ topic ++ " tutorials",
           topic ++ " case studies",
           "Expert " ++ topic ++ " techniques"] }
    else if score ≥ 70 then
      { next_steps := "Good progress! Continue with intermediate " ++ topic ++
          " topics"
        focus_areas := ["practical applications", "problem-solving"]
        additional_resources :=
          ["Intermediate " ++ topic ++ " tutorials",
           topic ++ " practice exercises"] }
    else
      { next_steps := "Let's review the basics of " ++ topic ++
          " before moving forward"
        focus_areas := ["fundamental concepts", "basic applications"]
        additional_resources :=
          ["Beginner " ++ topic ++ " tutorials",
           topic ++ " fundamentals review"] }
  .ok
    { status := "success"
      topic := topic
      checkpoint_type := checkpoint_type
      evaluation_results := evaluation_results
      recommendations := recommendations
      progress_percentage := min 100 (max 0 score)
      evaluation_method := some "ai_analysis"
      timestamp := some "2024-01-01T00:00:00Z"
      error := none }

/-- Embedding of `evaluate_knowledge` (lines 10-109): the try-body with
the outer `except Exception` handler (lines 89-107) that substitutes the
fixed fallback dict. -/
def evaluate_knowledge (topic checkpoint_type user_response : String)
    (analyze : Analyze) : Evaluation :=
  match evaluate_knowledge_try topic checkpoint_type user_response analyze with
  | .ok evaluation => evaluation
  | .error e =>
    { status := "fallback"
      topic := topic
      checkpoint_type := checkpoint_type
      evaluation_results :=
        { score := 75
          max_score := 100
          feedback := "Basic understanding of " ++ topic ++
            " concepts demonstrated."
          analysis_method := none }
      recommendations :=
        { next_steps := "Continue learning " ++ topic
          focus_areas := ["core concepts"]
          additional_resources := [topic ++ " tutorials"] }
      progress_percentage := 75
      evaluation_method := none
      timestamp := none
      error := some e }

/-! ### Evaluation theorems -/

/-- A collaborator whose every call raises. -/
def failAnalyze : Analyze := fun _ => Except.error "collaborator failure"

/-- A collaborator whose reply carries a score above 100. -/
def bigScoreAnalyze : Analyze :=
  fun _ => Except.ok { score := some 150, feedback := none }

/-- Counterexample to C1 as stated: under a forced collaborator failure the
evaluation returned by `evaluate_knowledge` has status "success", not
"fallback" — the route helper itself absorbs the failure. -/
theorem evaluate_knowledge_failure_status_cex :
    (evaluate_knowledge "ml" "quiz" "some answer" failAnalyze).status =
      "success" ∧
    (evaluate_knowledge "ml" "quiz" "some answer" failAnalyze).status ≠
      "fallback" := by
  decide

/-- C1 (amended): under a forced collaborator failure, for every route,
`evaluate_knowledge` returns without raising, with status "success",
max_score 100, the fixed per-route default score
(quiz 75, project 80, presentation 85, anything else 70) and the per-route
generic templated feedback string. -/
theorem evaluate_knowledge_collaborator_failure (topic ct response : String)
    (analyze : Analyze) (hfail : ∀ p, ∃ e, analyze p = Except.error e) :
    (evaluate_knowledge topic ct response analyze).status = "success" ∧
    (evaluate_knowledge topic ct response analyze).evaluation_results.max_score
      = 100 ∧
    (evaluate_knowledge topic ct response analyze).evaluation_results.score =
      (if ct = "quiz" then 75 else if ct = "project" then 80
       else if ct = "presentation" then 85 else 70) ∧
    (evaluate_knowledge topic ct response analyze).evaluation_results.feedback =
      (if ct = "quiz" then
        "Response demonstrates basic understanding of " ++ topic
       else if ct = "project" then
        "Project demonstrates understanding of " ++ topic ++ " concepts"
       else if ct = "presentation" then
        "Presentation shows understanding of " ++ topic
       else
        "Response demonstrates basic knowledge of " ++ topic) := by
  unfold evaluate_knowledge evaluate_knowledge_try
  by_cases h1 : ct = "quiz"
  · obtain ⟨e, he⟩ := hfail ("Analyze this response about " ++ topic ++
      ": '" ++ response ++
      "'. Rate the understanding from 0-100 and provide feedback.")
    simp [h1, evaluate_quiz_response, he]
  by_cases h2 : ct = "project"
  · obtain ⟨e, he⟩ := hfail ("Evaluate this project submission about " ++
      topic ++ ": '" ++ response ++
      "'. Assess creativity, technical accuracy, and completeness (0-100).")
    simp [h1, h2, evaluate_project_submission, he]
  by_cases h3 : ct = "presentation"
  · obtain ⟨e, he⟩ := hfail ("Evaluate this presentation about " ++ topic ++
      ": '" ++ response ++
      "'. Assess clarity, depth, and engagement (0-100).")
    simp [h1, h2, h3, evaluate_presentation, he]
  · obtain ⟨e, he⟩ := hfail ("Evaluate this response about " ++ topic ++
      ": '" ++ response ++ "'. Assess understanding and accuracy (0-100).")
    simp [h1, h2, h3, evaluate_general_response, he]

/-- Witness for the amended C1 at the quiz route with an always-failing
collaborator. -/
theorem evaluate_knowledge_collaborator_failure_witness :
    (evaluate_knowledge "ml" "quiz" "x" failAnalyze).status = "success" ∧
    (evaluate_knowledge "ml" "quiz" "x" failAnalyze).evaluation_results.max_score
      = 100 ∧
    (evaluate_knowledge "ml" "quiz" "x" failAnalyze).evaluation_results.score
      = 75 ∧
    (evaluate_knowledge "ml" "quiz" "x" failAnalyze).evaluation_results.feedback
      = "Response demonstrates basic understanding of ml" := by
  simpa using evaluate_knowledge_collaborator_failure "ml" "quiz" "x"
    failAnalyze (fun p => ⟨"collaborator failure", rfl⟩)

/-- Counterexample to C3 as stated: a collaborator reply with score 150 is
passed through unclamped into the returned evaluation_results. -/
theorem evaluate_knowledge_score_unclamped_cex :
    (evaluate_knowledge "ml" "quiz" "x" bigScoreAnalyze).evaluation_results.score
      = 150 ∧
    ¬((evaluate_knowledge "ml" "quiz" "x"
        bigScoreAnalyze).evaluation_results.score ≤ 100) := by
  decide

/-- The quiz route always reports max_score 100. -/
lemma evaluate_quiz_response_max (t r : String) (a : Analyze) :
    (evaluate_quiz_response t r a).max_score = 100 := by
  simp only [evaluate_quiz_response]
  cases a ("Analyze this response about " ++ t ++ ": '" ++ r ++
    "'. Rate the understanding from 0-100 and provide feedback.") <;> rfl

/-- The project route always reports max_score 100. -/
lemma evaluate_project_submission_max (t r : String) (a : Analyze) :
    (evaluate_project_submission t r a).max_score = 100 := by
  simp only [evaluate_project_submission]
  cases a ("Evaluate this project submission about " ++ t ++ ": '" ++ r ++
    "'. Assess creativity, technical accuracy, and completeness (0-100).")
    <;> rfl

/-- The presentation route always reports max_score 100. -/
lemma evaluate_presentation_max (t r : String) (a : Analyze) :
    (evaluate_presentation t r a).max_score = 100 := by
  simp only [evaluate_presentation]
  cases a ("Evaluate this presentation about " ++ t ++ ": '" ++ r ++
    "'. Assess clarity, depth, and engagement (0-100).") <;> rfl

/-- The general route always reports max_score 100. -/
lemma evaluate_general_response_max (t r : String) (a : Analyze) :
    (evaluate_general_response t r a).max_score = 100 := by
  simp only [evaluate_general_response]
  cases a ("Evaluate this response about " ++ t ++ ": '" ++ r ++
    "'. Assess understanding and accuracy (0-100).") <;> rfl

/-- C3 (amended): every evaluation returned by `evaluate_knowledge` — for
any reply the collaborator produces — has max_score = 100 and
progress_percentage = clamp(score, 0, 100); the score field itself is the
collaborator's raw value and is not clamped. -/
theorem evaluate_knowledge_progress_clamped (topic ct response : String)
    (analyze : Analyze) :
    (evaluate_knowledge topic ct response analyze).evaluation_results.max_score
      = 100 ∧
    (evaluate_knowledge topic ct response analyze).progress_percentage =
      min 100 (max 0
        ((evaluate_knowledge topic ct response
          analyze).evaluation_results.score)) := by
  constructor
  · unfold evaluate_knowledge evaluate_knowledge_try
    by_cases h1 : ct = "quiz"
    · simp [h1, evaluate_quiz_response_max]
    by_cases h2 : ct = "project"
    · simp [h1, h2, evaluate_project_submission_max]
    by_cases h3 : ct = "presentation"
    · simp [h1, h2, h3, evaluate_presentation_max]
    · simp [h1, h2, h3, evaluate_general_response_max]
  · rfl

/-! ## content.py: `generate_learning_content` -/

/-- The structured reply of a generation collaborator (`generate_image`,
`text_to_speech`, `generate_video`): a dict read with `.get("url", "")`. -/
structure GenReply where
  url : Option String

/-- A generation collaborator; `.error` models an exception raised inside
the call. -/
def ContentGen : Type := String → Except String GenReply

/-- Python `str.title()` (ASCII): uppercase a letter that follows a
non-letter, lowercase the rest. -/
def pyTitleAux : Bool → List Char → List Char
  | _, [] => []
  | prevAlpha, c :: cs =>
    (if c.isAlpha then (if prevAlpha then c.toLower else c.toUpper) else c) ::
      pyTitleAux c.isAlpha cs

/-- Python `str.title()`. -/
def pyTitle (s : String) : String :=
  ⟨pyTitleAux false s.toList⟩

/-- The `for i, section in enumerate(sections, 1)` accumulation in
`_generate_text_content`. -/
def textSections (adaptation : String) : Nat → List String → String
  | _, [] => ""
  | i, sec :: rest =>
    "## " ++ toString i ++ ". " ++ sec ++ "\n\n" ++ adaptation ++ "\n\n" ++
      textSections adaptation (i + 1) rest

/-- Embedding of `_generate_text_content` (content.py lines 127-168). -/
def generate_text_content (topic level learning_style : String) : String :=
  let content_sections : List (String × List String) :=
    [("beginner",
      ["Introduction to " ++ topic,
       "Basic concepts of " ++ topic,
       "Getting started with " ++ topic,
       "Simple examples of " ++ topic]),
     ("intermediate",
      ["Advanced concepts in " ++ topic,
       "Practical applications of " ++ topic,
       "Best practices for " ++ topic,
       "Common challenges in " ++ topic]),
     ("advanced",
      ["Expert-level " ++ topic ++ " techniques",
       "Advanced applications of " ++ topic,
       "Optimization strategies for " ++ topic,
       "Future trends in " ++ topic])]
  let style_adaptations : List (String × String) :=
    [("visual",
      "This section includes diagrams and visual examples to help you understand the concepts."),
     ("auditory",
      "This section focuses on explanations and verbal descriptions of the concepts."),
     ("hands-on",
      "This section includes practical exercises and step-by-step tutorials."),
     ("theoretical",
      "This section provides in-depth theoretical explanations and mathematical foundations.")]
  let sections := pyDictGetD content_sections level
    ["Introduction to " ++ topic,
     "Basic concepts of " ++ topic,
     "Getting started with " ++ topic,
     "Simple examples of " ++ topic]
  let adaptation := pyDictGetD style_adaptations learning_style ""
  "# " ++ pyTitle topic ++ " - " ++ pyTitle level ++ " Level\n\n" ++
    textSections adaptation 1 sections

/-- The `content` dict of generated material. -/
structure GeneratedContent where
  text : String
  image_url : Option String
  video_url : Option String
  audio_url : Option String

/-- The `metadata` dict (keys present on only one path are `Option`). -/
structure ContentMetadata where
  generation_time : String
  content_length : String
  difficulty_score : ℚ
  learning_style_optimized : Option Bool
  generation_method : Option String
  error : Option String

/-- The dict returned by `generate_learning_content`. -/
structure ContentResult where
  status : String
  content_type : String
  topic : String
  level : String
  learning_style : String
  content : GeneratedContent
  metadata : ContentMetadata

/-- The try-body of `generate_learning_content` (content.py lines 30-77):
dispatch on content_type; the final `else` raises
`ValueError(f"Unsupported content type: {content_type}")`, modelled as
`.error` with the exception's string. -/
def generate_learning_content_try (content_type topic level learning_style :
    String) (generate_image text_to_speech generate_video : ContentGen) :
    Except String GeneratedContent :=
  if content_type = "text" then
    .ok
      { text := generate_text_content topic level learning_style
        image_url := none
        video_url := none
        audio_url := none }
  else if content_type = "image" then
    match generate_image ("Create an educational diagram explaining " ++
        topic ++ " concepts at " ++ level ++ " level, suitable for " ++
        learning_style ++ " learners") with
    | .error e => .error e
    | .ok image_result =>
      .ok
        { text := "Visual explanation of " ++ topic ++ " concepts"
          image_url := some (image_result.url.getD "")
          video_url := none
          audio_url := none }
  else if content_type = "audio" then
    match text_to_speech ("Welcome to this " ++ level ++ " level lesson on "
        ++ topic ++ ". This content is designed for " ++ learning_style ++
        " learners.") with
    | .error e => .error e
    | .ok audio_result =>
      .ok
        { text := "Welcome to this " ++ level ++ " level lesson on " ++
            topic ++ ". This content is designed for " ++ learning_style ++
            " learners."
          image_url := none
          video_url := none
          audio_url := some (audio_result.url.getD "") }
  else if content_type = "video" then
    match generate_video ("Create a short educational video about " ++
        topic ++ " for " ++ level ++ " learners") with
    | .error e => .error e
    | .ok video_result =>
      .ok
        { text := "Video lesson on " ++ topic
          image_url := none
          video_url := some (video_result.url.getD "")
          audio_url := none }
  else
    .error ("Unsupported content type: " ++ content_type)

/-- Embedding of `generate_learning_content` (lines 10-124): the try-body
with the outer `except Exception` handler (lines 98-122) that catches every
failure — the raised ValueError included — and substitutes the fallback
content dict. -/
def generate_learning_content (content_type topic level learning_style :
    String) (generate_image text_to_speech generate_video : ContentGen) :
    ContentResult :=
  match generate_learning_content_try content_type topic level learning_style
    generate_image text_to_speech generate_video with
  | .ok generated_content =>
    { status := "success"
      content_type := content_type
      topic := topic
      level := level
      learning_style := learning_style
      content := generated_content
      metadata :=
        { generation_time := "2024-01-01T00:00:00Z"
          content_length := "5 minutes"
          difficulty_score :=
            pyDictGetD
              [("beginner", (3 : ℚ) / 10), ("intermediate", (7 : ℚ) / 10),
               ("advanced", (9 : ℚ) / 10)] level ((5 : ℚ) / 10)
          learning_style_optimized := some true
          generation_method := some "ai_generated"
          error := none } }
  | .error e =>
    { status := "fallback"
      content_type := content_type
      topic := topic
      level := level
      learning_style := learning_style
      content :=
        { text := "Comprehensive " ++ level ++ " level content about " ++
            topic
          image_url := none
          video_url := none
          audio_url := none }
      metadata :=
        { generation_time := "2024-01-01T00:00:00Z"
          content_length := "5 minutes"
          difficulty_score :=
            if level = "intermediate" then (7 : ℚ) / 10
            else if level = "beginner" then (3 : ℚ) / 10
            else (9 : ℚ) / 10
          learning_style_optimized := none
          generation_method := none
          error := some e } }

/-! ### Content theorem (C2) -/

/-- A generation collaborator that always succeeds with no url. -/
def okGen : ContentGen := fun _ => Except.ok { url := none }

/-- Counterexample to C2 as stated: an unsupported content type does not
surface a hard failure to the caller — the ValueError is caught by the
function's own handler and downgraded to a status="fallback" result. -/
theorem generate_learning_content_unsupported_cex :
    (generate_learning_content "hologram" "ml" "beginner" "visual"
      okGen okGen okGen).status = "fallback" ∧
    (generate_learning_content "hologram" "ml" "beginner" "visual"
      okGen okGen okGen).metadata.error =
      some "Unsupported content type: hologram" := by
  constructor <;> rfl

/-- C2 (amended): for every content_type outside {text, image, audio,
video}, `generate_learning_content` raises ValueError inside its try-body,
but its own `except Exception` handler swallows it and returns a
status="fallback" result carrying the error text; no exception reaches the
caller. -/
theorem generate_learning_content_unsupported_fallback
    (ct topic level style : String) (gi tts gv : ContentGen)
    (h1 : ct ≠ "text") (h2 : ct ≠ "image") (h3 : ct ≠ "audio")
    (h4 : ct ≠ "video") :
    generate_learning_content_try ct topic level style gi tts gv =
      Except.error ("Unsupported content type: " ++ ct) ∧
    (generate_learning_content ct topic level style gi tts gv).status =
      "fallback" ∧
    (generate_learning_content ct topic level style gi tts gv).metadata.error
      = some ("Unsupported content type: " ++ ct) := by
  have htry : generate_learning_content_try ct topic level style gi tts gv =
      Except.error ("Unsupported content type: " ++ ct) := by
    unfold generate_learning_content_try
    simp [h1, h2, h3, h4]
  refine ⟨htry, ?_, ?_⟩ <;>
    · unfold generate_learning_content
      rw [htry]

/-- Witness for the amended C2 at content_type "hologram". -/
theorem generate_learning_content_unsupported_fallback_witness :
    generate_learning_content_try "hologram" "ml" "advanced" "auditory"
        okGen okGen okGen =
      Except.error ("Unsupported content type: " ++ "hologram") ∧
    (generate_learning_content "hologram" "ml" "advanced" "auditory"
      okGen okGen okGen).status = "fallback" ∧
    (generate_learning_content "hologram" "ml" "advanced" "auditory"
      okGen okGen okGen).metadata.error =
      some ("Unsupported content type: " ++ "hologram") :=
  generate_learning_content_unsupported_fallback "hologram" "ml" "advanced"
    "auditory" okGen okGen okGen (by decide) (by decide) (by decide)
    (by decide)

end AITutor
